import Mathlib

/-!
Verification of the Stock-Screener client orchestration layer.

Shallow embedding of the client code:
* `handleResponse` (services/api.js, services/sectorApi.js) — the response
  resolver turning a raw HTTP response into a parsed payload or an error;
* the Dashboard workflow handlers `handleFileChange`, `handleUpload`,
  `handleProcess` (pages/Dashboard.jsx) — the workflow coordinator;
* `logout` (context/AuthProvider) — the session store's logout;
* `fetchData`, `maxPerformance`, bar geometry (components/SectorPerformance.jsx)
  — the sector aggregator.

JavaScript values relevant to the claims are modelled with a one-level JSON
value type (`JVal` primitives, `Json` either a primitive or a flat object);
asynchronous calls are modelled by passing their outcome (`Except HErr Json`)
as an argument; React `useState` state is a record threaded explicitly.
-/

/-- A primitive JSON value (the level of nesting the claims need). -/
inductive JVal where
  | null : JVal
  | bool : Bool → JVal
  | num : Rat → JVal
  | str : String → JVal
deriving DecidableEq, Repr

/-- A parsed JSON body: a primitive, or a flat object (field name ↦ primitive). -/
inductive Json where
  | prim : JVal → Json
  | obj : List (String × JVal) → Json
deriving DecidableEq, Repr

/-- JavaScript truthiness of a primitive value. -/
def JVal.truthy : JVal → Bool
  | .null => false
  | .bool b => b
  | .num q => q ≠ 0
  | .str s => s ≠ ""

/-- JavaScript string coercion (`String(v)`) of a primitive value, as used when a
non-string lands in `new Error(...)` or in rendered text. -/
def JVal.toStr : JVal → String
  | .null => "null"
  | .bool b => if b then "true" else "false"
  | .num q => toString q
  | .str s => s

/-- Property access `j.k`: `undefined` (`none`) on a primitive receiver or a
missing field, the field's value otherwise. -/
def Json.getField : Json → String → Option JVal
  | .prim _, _ => none
  | .obj fs, k => fs.lookup k

/-- JavaScript `a || b` where `a` is a (possibly undefined) property. -/
def jsOr (a : Option JVal) (b : JVal) : JVal :=
  match a with
  | some v => if v.truthy then v else b
  | none => b

/-- Truthiness of the property `j.k` (`undefined` is falsy). -/
def Json.truthyField (j : Json) (k : String) : Bool :=
  match j.getField k with
  | some v => v.truthy
  | none => false

/-- JavaScript `String.prototype.includes`: `needle` occurs contiguously in
`hay`. -/
def strIncludes (hay needle : String) : Bool :=
  (List.range (hay.length + 1)).any
    (fun i => decide ((hay.data.drop i).take needle.length = needle.data))

/-- `substring(0, 100)`: the first at most 100 characters of a string. -/
def jsSubstring100 (s : String) : String :=
  ⟨s.data.take 100⟩

/-- The spec's error taxonomy (§7): which failure path of the resolver fired. -/
inductive ErrorKind where
  | ValidationError : ErrorKind
  | ServerFault : ErrorKind
  | ApplicationError : ErrorKind
  | MalformedResponse : ErrorKind
deriving DecidableEq, Repr

/-- A classified error: a taxonomy kind plus the `Error` message string the code
throws. -/
structure HErr where
  kind : ErrorKind
  msg : String
deriving DecidableEq, Repr

/-- A raw HTTP response as `handleResponse` observes it: `ok`/`status`/
`statusText` from the `Response`, the declared content type header (absent =
`null`), the raw body text, and the result of `response.json()` — `none` when
structured parsing of the body fails (the promise rejects), `some j` when it
resolves with `j`. -/
structure HttpResponse where
  ok : Bool
  status : Nat
  statusText : String
  contentType : Option String
  bodyText : String
  bodyJson : Option Json
deriving DecidableEq, Repr

/-- `contentType && contentType.includes(needle)`. -/
def ctIncludes (ct : Option String) (needle : String) : Bool :=
  match ct with
  | none => false
  | some s => strIncludes s needle

/-- The body of the `try` block in the non-ok branch of `handleResponse`:

```js
const errorData = await response.json();
throw new Error(errorData.message || errorData.detail || `HTTP ${response.status}`);
```

Every path through this block throws: either `response.json()` rejects
(modelled as a parse failure, tagged `ServerFault` per spec §4.1 step 1c), or
the explicitly constructed application error is thrown. -/
def errorTryBlock (r : HttpResponse) : Except HErr Json :=
  match r.bodyJson with
  | none => .error ⟨.ServerFault, "SyntaxError: unexpected token"⟩
  | some errorData =>
      .error ⟨.ApplicationError,
        (jsOr (errorData.getField "message")
          (jsOr (errorData.getField "detail")
            (.str ("HTTP " ++ toString r.status)))).toStr⟩

/-- The response resolver `handleResponse` of services/api.js (identical logic
in services/sectorApi.js). Faithful to the source's control flow: in the
non-ok, non-HTML branch the whole `try { ...; throw ... }` is wrapped by a bare
`catch` that throws `HTTP <status>: <statusText>`, so whatever `errorTryBlock`
throws — including the intended application error — is replaced by the catch's
error. On the ok path, a JSON parse failure reads the body text and throws the
`Invalid JSON response: ...` error with the body truncated to 100 characters. -/
def handleResponse (r : HttpResponse) : Except HErr Json :=
  if !r.ok then
    if ctIncludes r.contentType "text/html" then
      .error ⟨.ServerFault,
        "Server error: " ++ toString r.status ++ " " ++ r.statusText⟩
    else
      match errorTryBlock r with
      | .error _ =>
          .error ⟨.ServerFault,
            "HTTP " ++ toString r.status ++ ": " ++ r.statusText⟩
      | .ok v => .ok v
  else
    match r.bodyJson with
    | some j => .ok j
    | none =>
        .error ⟨.MalformedResponse,
          "Invalid JSON response: " ++ jsSubstring100 r.bodyText ++ "..."⟩

/-! ## Workflow coordinator (pages/Dashboard.jsx) -/

/-- A selected file: only its name is observable to the coordinator. -/
structure FileHandle where
  name : String
deriving DecidableEq, Repr

/-- The Dashboard's `useState` variables, threaded as an explicit record. -/
structure DashState where
  file : Option FileHandle
  fileName : String
  uploading : Bool
  processing : Bool
  error : String
  results : Option Json
  signals : Option Json
  chartUrl : String
deriving DecidableEq, Repr

/-- The Dashboard's initial state. -/
def initialDashState : DashState :=
  ⟨none, "", false, false, "", none, none, ""⟩

/-- `api.getChartIframe()` with no upload id: a pure URL constructor. -/
def chartIframeUrl : String :=
  "http://localhost:8000/chart-iframe"

/-- The spec's workflow `Stage`, derived from the Dashboard's state variables:
`Uploading`/`Processing` from the two busy flags, `Failed` when an error
message is set, `Ready` when results, signals and the chart reference are all
set, `Idle` otherwise. -/
inductive Stage where
  | Idle : Stage
  | Uploading : Stage
  | Processing : Stage
  | Ready : Stage
  | Failed : Stage
deriving DecidableEq, Repr

/-- Map a Dashboard state to the spec's `Stage`. -/
def stage (st : DashState) : Stage :=
  if st.uploading then .Uploading
  else if st.processing then .Processing
  else if st.error ≠ "" then .Failed
  else if st.results.isSome ∧ st.signals.isSome ∧ st.chartUrl ≠ "" then .Ready
  else .Idle

/-- `handleFileChange`: store the selected file and its name; when the picker
yields no file (`e.target.files[0]` undefined) nothing changes. No other state
variable is touched. -/
def handleFileChange (st : DashState) (selectedFile : Option FileHandle) :
    DashState :=
  match selectedFile with
  | some f => { st with file := some f, fileName := f.name }
  | none => st

/-- Structural success of a call outcome: the call resolved and its payload's
`success` field is truthy. -/
def structuralSuccess (o : Except HErr Json) : Bool :=
  match o with
  | .ok j => j.truthyField "success"
  | .error _ => false

/-- Whether a call outcome resolved at all. -/
def isOkB (o : Except HErr Json) : Bool :=
  match o with
  | .ok _ => true
  | .error _ => false

/-- `handleProcess`: the outcomes of `api.processCSV()`, `api.getResults()` and
`api.getSignals()` are passed as arguments (`getSignals` is awaited only after
`getResults` resolves; its outcome is ignored when `getResults` rejects).
Mirrors the source: set `processing`, clear `error`; on structural success of
the process call fetch results then signals, and only after both resolve store
them and the iframe chart URL; a falsy `success` sets `error` from the
payload's `error` field with a fixed fallback; any thrown error is caught and
sets the fixed message `An error occurred during processing`; `finally` clears
`processing`. -/
def handleProcess (st : DashState)
    (procOutcome resultsOutcome signalsOutcome : Except HErr Json) :
    DashState :=
  let st := { st with processing := true, error := "" }
  let st :=
    match procOutcome with
    | .ok result =>
        if result.truthyField "success" then
          match resultsOutcome with
          | .ok resultsData =>
              match signalsOutcome with
              | .ok signalsData =>
                  { st with results := some resultsData,
                            signals := some signalsData,
                            chartUrl := chartIframeUrl }
              | .error _ =>
                  { st with error := "An error occurred during processing" }
          | .error _ =>
              { st with error := "An error occurred during processing" }
        else
          { st with error :=
              (jsOr (result.getField "error") (.str "Processing failed")).toStr }
    | .error _ =>
        { st with error := "An error occurred during processing" }
  { st with processing := false }

/-- `handleUpload`: with no file selected, fail locally with a fixed message and
no network call; otherwise clear `error`, set `uploading`, run the upload, on
structural success continue with `handleProcess`, on falsy `success` set
`error` from the payload's `message` field with a fixed fallback, on a thrown
error set the fixed message `An error occurred during upload`; `finally`
clears `uploading`. -/
def handleUpload (st : DashState) (uploadOutcome : Except HErr Json)
    (procOutcome resultsOutcome signalsOutcome : Except HErr Json) :
    DashState :=
  match st.file with
  | none => { st with error := "Please select a file to upload" }
  | some _ =>
      let st := { st with error := "", uploading := true }
      let st :=
        match uploadOutcome with
        | .ok result =>
            if result.truthyField "success" then
              handleProcess st procOutcome resultsOutcome signalsOutcome
            else
              { st with error :=
                  (jsOr (result.getField "message") (.str "Upload failed")).toStr }
        | .error _ =>
            { st with error := "An error occurred during upload" }
      { st with uploading := false }

/-! ## Session store (AuthProvider) -/

/-- The AuthProvider's state: the current user (`null` = Anonymous) and the
initial-probe loading flag. -/
structure AuthState where
  user : Option String
  loading : Bool
deriving DecidableEq, Repr

/-- The session is `Authenticated` when a user is set. -/
def AuthState.authenticated (st : AuthState) : Bool :=
  st.user.isSome

/-- `logout` of the AuthProvider: await `api.logout()`; on success clear the
user and return `true`; if the call throws (transport failure or classified
error), the `catch` only logs and returns `false` — the user is NOT cleared.
The outcome of the underlying call is passed as an argument. -/
def logout (st : AuthState) (callOutcome : Except HErr Json) :
    AuthState × Bool :=
  match callOutcome with
  | .ok _ => ({ st with user := none }, true)
  | .error _ => (st, false)

/-! ## Sector aggregator (components/SectorPerformance.jsx) -/

/-- One entry of the per-sector series. -/
structure SectorEntry where
  sector : String
  performance : Rat
deriving DecidableEq, Repr

/-- The aggregate summary payload, as the component reads it. -/
structure SectorSummary where
  average_performance : Rat
  positive_sectors : Nat
  negative_sectors : Nat
deriving DecidableEq, Repr

/-- The per-sector series response: a `success` flag and the entry list. -/
structure SectorDataResponse where
  success : Bool
  data : List SectorEntry
deriving DecidableEq, Repr

/-- The SectorPerformance component's `useState` variables. -/
structure SectorState where
  period : String
  sectorData : List SectorEntry
  summary : Option SectorSummary
  loading : Bool
  error : String
deriving DecidableEq, Repr

/-- The component's initial state. -/
def initialSectorState : SectorState :=
  ⟨"1d", [], none, false, ""⟩

/-- `fetchData`: the joined outcome of
`Promise.all([fetchSectorData, fetchSectorSummary])` is passed as an argument —
it resolves with both payloads or rejects with the first error. Mirrors the
source: set `loading`, clear `error`; on resolution store the entries only if
the series reports `success` and store the summary only if it is truthy; on
rejection set the fixed error message — the previous `sectorData` and
`summary` are NOT cleared; `finally` clears `loading`. -/
def fetchData (st : SectorState)
    (outcome : Except HErr (SectorDataResponse × Option SectorSummary)) :
    SectorState :=
  let st := { st with loading := true, error := "" }
  let st :=
    match outcome with
    | .ok (dataResponse, summaryResponse) =>
        let st :=
          if dataResponse.success then
            { st with sectorData := dataResponse.data }
          else st
        match summaryResponse with
        | some s => { st with summary := some s }
        | none => st
    | .error _ =>
        { st with error := "Failed to fetch sector data" }
  { st with loading := false }

/-- `maxPerformance`: the scaling divisor —
`Math.max(...sectorData.map(item => Math.abs(item.performance)))` when entries
exist, the fixed default `5` otherwise. -/
def maxPerformance (sectorData : List SectorEntry) : Rat :=
  match sectorData with
  | [] => 5
  | x :: xs =>
      xs.foldl (fun acc e => max acc |e.performance|) |x.performance|

/-- The rendered width (in percent) of one sector's bar:
`Math.min(Math.abs(sector.performance) / maxPerformance * 100, 100)`. -/
def barWidth (sectorData : List SectorEntry) (sector : SectorEntry) : Rat :=
  min (|sector.performance| / maxPerformance sectorData * 100) 100

/-- `marginLeft: sector.performance < 0 ? 'auto' : '0'` — a negative bar is
pushed to the right edge of its container. -/
def rightAligned (sector : SectorEntry) : Bool :=
  sector.performance < 0

/-- Worded from the spec (§4.5) for comparison with the code's divisor:
`max(abs(performance) over all entries)`, folded with the neutral element 0. -/
def specMaxAbs (entries : List SectorEntry) : Rat :=
  entries.foldr (fun e acc => max |e.performance| acc) 0

/-! ## Concrete inputs used by witnesses and counterexamples -/

/-- A 400 response with a parseable structured error body carrying a
`message` field. -/
def resp400 : HttpResponse :=
  ⟨false, 400, "Bad Request", some "application/json",
   "\x7b\"message\":\"Bad ticker\"\x7d",
   some (.obj [("message", .str "Bad ticker")])⟩

/-- A 422 response with a parseable structured error body carrying both
`message` and `detail` fields. -/
def resp422 : HttpResponse :=
  ⟨false, 422, "Unprocessable Entity", some "application/json",
   "\x7b\"message\":\"bad data\",\"detail\":\"row 3\"\x7d",
   some (.obj [("message", .str "bad data"), ("detail", .str "row 3")])⟩

/-- A 500 response declaring an HTML content type. -/
def resp500html : HttpResponse :=
  ⟨false, 500, "Internal Server Error", some "text/html; charset=utf-8",
   "<html><body>boom</body></html>", none⟩

/-- A 200 response whose body is not valid structured data. -/
def resp200bad : HttpResponse :=
  ⟨true, 200, "OK", some "text/plain",
   String.mk (List.replicate 150 'x'), none⟩

/-! ## Theorems -/

deriving instance DecidableEq for Except

/-- Helper: a state with a non-empty error message is never classified
`Ready`. -/
theorem stage_ne_ready_of_error (st : DashState) (h : st.error ≠ "") :
    stage st ≠ Stage.Ready := by
  unfold stage
  split_ifs <;> simp_all

/-- Helper: a state with no results is never classified `Ready`. -/
theorem stage_ne_ready_of_no_results (st : DashState) (h : st.results = none) :
    stage st ≠ Stage.Ready := by
  unfold stage
  split_ifs <;> simp_all

/-- C8: for every response with a non-success status whose declared content
type indicates markup (`text/html`), the resolver fails with
`ErrorKind.ServerFault` carrying the numeric status and status text, and the
outcome is independent of the body (no structured parsing is attempted). -/
theorem handleResponse_html_serverFault (r : HttpResponse)
    (hok : r.ok = false)
    (hct : ctIncludes r.contentType "text/html" = true) :
    handleResponse r =
      .error ⟨.ServerFault,
        "Server error: " ++ toString r.status ++ " " ++ r.statusText⟩
    ∧ ∀ bt bj, handleResponse { r with bodyText := bt, bodyJson := bj } =
        handleResponse r := by
  constructor
  · unfold handleResponse
    rw [hok]
    simp [hct]
  · intro bt bj
    unfold handleResponse
    rw [hok]
    simp [hct]

/-- Witness for C8 at a concrete 500 HTML response. -/
theorem handleResponse_html_serverFault_witness :
    handleResponse resp500html =
      .error ⟨.ServerFault,
        "Server error: " ++ toString resp500html.status ++ " " ++
          resp500html.statusText⟩ :=
  (handleResponse_html_serverFault resp500html rfl (by decide)).1

/-- C10: for every response with a non-success status and a non-markup content
type, the resolver rejects with exactly `HTTP <status>: <statusText>`,
independent of the body: the intended application-level throw inside the `try`
is caught by the resolver's own bare `catch`. -/
theorem handleResponse_nonOk_fixed_http_message (r : HttpResponse)
    (hok : r.ok = false)
    (hct : ctIncludes r.contentType "text/html" = false) :
    handleResponse r =
      .error ⟨.ServerFault,
        "HTTP " ++ toString r.status ++ ": " ++ r.statusText⟩ := by
  unfold handleResponse
  rw [hok]
  simp only [Bool.not_false, if_true, hct, Bool.false_eq_true, if_false]
  unfold errorTryBlock
  cases r.bodyJson <;> simp

/-- Witness for C10: a 422 response whose body parses and carries `message`
and `detail` fields still yields the fixed `HTTP 422: Unprocessable Entity`
message. -/
theorem handleResponse_nonOk_fixed_http_message_witness :
    resp422.bodyJson = some (.obj [("message", .str "bad data"),
      ("detail", .str "row 3")]) ∧
    handleResponse resp422 =
      .error ⟨.ServerFault,
        "HTTP " ++ toString resp422.status ++ ": " ++ resp422.statusText⟩ :=
  ⟨rfl, handleResponse_nonOk_fixed_http_message resp422 rfl (by decide)⟩

/-- C2 (code bug): at `resp400` the `try` block builds the intended
`ApplicationError` with the payload's `message` field, but `handleResponse`
discards it — its own bare `catch` replaces it with the fixed
`HTTP 400: Bad Request` error, so the resolver never surfaces the payload
message. -/
theorem handleResponse_applicationError_swallowed :
    errorTryBlock resp400 = .error ⟨.ApplicationError, "Bad ticker"⟩
    ∧ handleResponse resp400 = .error ⟨.ServerFault, "HTTP 400: Bad Request"⟩
    ∧ handleResponse resp400 ≠ .error ⟨.ApplicationError, "Bad ticker"⟩ := by
  refine ⟨by decide, by decide, by decide⟩

/-- C6: for every response with a success status whose body fails structured
parsing, the resolver fails with `ErrorKind.MalformedResponse` whose message
holds the first at most 100 characters of the raw body followed by the `...`
truncation marker. -/
theorem handleResponse_malformed_truncated (r : HttpResponse)
    (hok : r.ok = true) (hj : r.bodyJson = none) :
    handleResponse r =
      .error ⟨.MalformedResponse,
        "Invalid JSON response: " ++ jsSubstring100 r.bodyText ++ "..."⟩
    ∧ (jsSubstring100 r.bodyText).length ≤ 100
    ∧ (jsSubstring100 r.bodyText).data = r.bodyText.data.take 100 := by
  refine ⟨?_, ?_, rfl⟩
  · unfold handleResponse
    rw [hok, hj]
    simp
  · show (r.bodyText.data.take 100).length ≤ 100
    rw [List.length_take]
    exact min_le_left _ _

/-- Witness for C6 at a concrete 200 response with a 150-character
unparseable body: only the first 100 characters appear before the marker. -/
theorem handleResponse_malformed_truncated_witness :
    handleResponse resp200bad =
      .error ⟨.MalformedResponse,
        "Invalid JSON response: " ++ jsSubstring100 resp200bad.bodyText ++ "..."⟩
    ∧ (jsSubstring100 resp200bad.bodyText).length ≤ 100
    ∧ resp200bad.bodyText.length = 150 := by
  have h := handleResponse_malformed_truncated resp200bad rfl rfl
  refine ⟨h.1, h.2.1, ?_⟩
  show (List.replicate 150 'x').length = 150
  simp

/-- Outcomes used by the workflow witnesses: a structurally successful
process call, successfully fetched results, and a failing signals fetch. -/
def procOk : Except HErr Json := .ok (.obj [("success", .bool true)])

/-- A successful results fetch payload. -/
def resultsOk : Except HErr Json :=
  .ok (.obj [("accuracy_rate", .num (145 / 2)), ("total_signals", .num 40)])

/-- A signals fetch that rejects with a classified server fault. -/
def signalsErr : Except HErr Json :=
  .error ⟨.ServerFault, "HTTP 500: Internal Server Error"⟩

/-- C1: a workflow run starting with no outputs reaches `Ready` only when the
process call reports structural success and both the results and signals
fetches resolve; when the signals fetch (or the results fetch) fails after a
successful process call, the run ends `Failed` with `results` and `signals`
still null — no data from the failed run is retained. -/
theorem workflow_ready_requires_both_fetches (st : DashState)
    (p r s : Except HErr Json)
    (hres : st.results = none) (hsig : st.signals = none) :
    (stage (handleProcess st p r s) = Stage.Ready →
       structuralSuccess p = true ∧ isOkB r = true ∧ isOkB s = true)
    ∧ (structuralSuccess p = true → isOkB r = true → isOkB s = false →
        st.uploading = false →
        stage (handleProcess st p r s) = Stage.Failed ∧
        (handleProcess st p r s).results = none ∧
        (handleProcess st p r s).signals = none)
    ∧ (structuralSuccess p = true → isOkB r = false →
        st.uploading = false →
        stage (handleProcess st p r s) = Stage.Failed ∧
        (handleProcess st p r s).results = none ∧
        (handleProcess st p r s).signals = none) := by
  refine ⟨?_, ?_, ?_⟩
  · intro hready
    cases p with
    | error e =>
        exact absurd hready
          (stage_ne_ready_of_no_results _ (by simp [handleProcess, hres]))
    | ok result =>
        by_cases hsucc : result.truthyField "success"
        · cases r with
          | error e =>
              exact absurd hready
                (stage_ne_ready_of_no_results _
                  (by simp [handleProcess, hsucc, hres]))
          | ok resultsData =>
              cases s with
              | error e =>
                  exact absurd hready
                    (stage_ne_ready_of_no_results _
                      (by simp [handleProcess, hsucc, hres]))
              | ok signalsData =>
                  exact ⟨by simp [structuralSuccess, hsucc], rfl, rfl⟩
        · exact absurd hready
            (stage_ne_ready_of_no_results _
              (by simp [handleProcess, hsucc, hres]))
  · intro hp hr hs hu
    cases p with
    | error e => simp [structuralSuccess] at hp
    | ok result =>
        cases r with
        | error e => simp [isOkB] at hr
        | ok resultsData =>
            cases s with
            | ok signalsData => simp [isOkB] at hs
            | error e =>
                have hsucc : result.truthyField "success" = true := by
                  simpa [structuralSuccess] using hp
                refine ⟨?_, by simp [handleProcess, hsucc, hres],
                  by simp [handleProcess, hsucc, hsig]⟩
                simp [handleProcess, hsucc, stage, hu]
  · intro hp hr hu
    cases p with
    | error e => simp [structuralSuccess] at hp
    | ok result =>
        cases r with
        | ok resultsData => simp [isOkB] at hr
        | error e =>
            have hsucc : result.truthyField "success" = true := by
              simpa [structuralSuccess] using hp
            refine ⟨?_, by simp [handleProcess, hsucc, hres],
              by simp [handleProcess, hsucc, hsig]⟩
            simp [handleProcess, hsucc, stage, hu]

/-- Witness for C1: from the initial state, a successful process call and
results fetch followed by a failing signals fetch end in `Failed` with null
`results` and `signals`. -/
theorem workflow_ready_requires_both_fetches_witness :
    stage (handleProcess initialDashState procOk resultsOk signalsErr) =
      Stage.Failed
    ∧ (handleProcess initialDashState procOk resultsOk signalsErr).results =
        none
    ∧ (handleProcess initialDashState procOk resultsOk signalsErr).signals =
        none :=
  (workflow_ready_requires_both_fetches initialDashState procOk resultsOk
    signalsErr rfl rfl).2.1 (by decide) rfl rfl rfl

/-- A state in which a file has been selected, ready to submit. -/
def stWithFile : DashState :=
  { initialDashState with file := some ⟨"trades.csv"⟩, fileName := "trades.csv" }

/-- A classified error as the response resolver produces it. -/
def classifiedErr : HErr :=
  ⟨.ServerFault, "Server error: 500 Internal Server Error"⟩

/-- Counterexample to C9: a classified error thrown by the upload call — and
likewise one thrown by the process call — moves the workflow to `Failed`, but
the message shown is the fixed generic one (`An error occurred during
upload` / `An error occurred during processing`), not the classified error's
message `Server error: 500 Internal Server Error`. -/
theorem workflow_failed_message_not_classified_cex :
    stage (handleUpload stWithFile (.error classifiedErr)
      procOk resultsOk signalsErr) = Stage.Failed
    ∧ (handleUpload stWithFile (.error classifiedErr)
        procOk resultsOk signalsErr).error ≠ classifiedErr.msg
    ∧ (handleUpload stWithFile (.error classifiedErr)
        procOk resultsOk signalsErr).error = "An error occurred during upload"
    ∧ stage (handleProcess stWithFile (.error classifiedErr)
        resultsOk signalsErr) = Stage.Failed
    ∧ (handleProcess stWithFile (.error classifiedErr)
        resultsOk signalsErr).error ≠ classifiedErr.msg
    ∧ (handleProcess stWithFile (.error classifiedErr)
        resultsOk signalsErr).error = "An error occurred during processing" := by
  decide

/-- C9 amended: a call rejecting with a classified error still moves the
workflow to `Failed`, but the message set is a fixed generic one —
`An error occurred during upload` for the upload call,
`An error occurred during processing` for the process, results and signals
calls — independent of the classified error's own message, which is only
logged; the local validation failure (no file selected) sets the fixed
`Please select a file to upload`. Only structural failures (a resolved payload
with a falsy `success`) surface a server-provided message. -/
theorem workflow_failed_fixed_generic_messages :
    (∀ st f e p r s, st.file = some f →
       (handleUpload st (.error e) p r s).error =
         "An error occurred during upload")
    ∧ (∀ st f e p r s, st.file = some f → st.processing = false →
        stage (handleUpload st (.error e) p r s) = Stage.Failed)
    ∧ (∀ st e r s, (handleProcess st (.error e) r s).error =
        "An error occurred during processing")
    ∧ (∀ st e r s, st.uploading = false →
        stage (handleProcess st (.error e) r s) = Stage.Failed)
    ∧ (∀ st v e s, Json.truthyField v "success" = true →
        (handleProcess st (.ok v) (.error e) s).error =
          "An error occurred during processing")
    ∧ (∀ st v rd e, Json.truthyField v "success" = true →
        (handleProcess st (.ok v) (.ok rd) (.error e)).error =
          "An error occurred during processing")
    ∧ (∀ st u p r s, st.file = none →
        (handleUpload st u p r s).error = "Please select a file to upload") := by
  refine ⟨?_, ?_, ?_, ?_, ?_, ?_, ?_⟩
  · intro st f e p r s hf
    simp [handleUpload, hf]
  · intro st f e p r s hf hp
    simp [handleUpload, hf, stage, hp]
  · intro st e r s
    simp [handleProcess]
  · intro st e r s hu
    simp [handleProcess, stage, hu]
  · intro st v e s hv
    simp [handleProcess, hv]
  · intro st v rd e hv
    simp [handleProcess, hv]
  · intro st u p r s hf
    simp [handleUpload, hf]

/-- Witness for the amended C9 at concrete inputs: a classified upload error
shows the fixed upload message and ends `Failed`, and the no-file validation
failure shows its fixed message. -/
theorem workflow_failed_fixed_generic_messages_witness :
    (handleUpload stWithFile (.error classifiedErr) procOk resultsOk
      signalsErr).error = "An error occurred during upload"
    ∧ stage (handleUpload stWithFile (.error classifiedErr) procOk resultsOk
        signalsErr) = Stage.Failed
    ∧ (handleUpload initialDashState procOk procOk resultsOk
        signalsErr).error = "Please select a file to upload" :=
  ⟨workflow_failed_fixed_generic_messages.1 stWithFile ⟨"trades.csv"⟩
      classifiedErr procOk resultsOk signalsErr rfl,
   workflow_failed_fixed_generic_messages.2.1 stWithFile ⟨"trades.csv"⟩
      classifiedErr procOk resultsOk signalsErr rfl rfl,
   workflow_failed_fixed_generic_messages.2.2.2.2.2.2 initialDashState procOk
      procOk resultsOk signalsErr rfl⟩

/-- A state that has reached `Ready`: results, signals and the chart
reference are all set from a completed run. -/
def readyState : DashState :=
  { file := some ⟨"trades.csv"⟩, fileName := "trades.csv", uploading := false,
    processing := false, error := "",
    results := some (.obj [("accuracy_rate", .num (145 / 2))]),
    signals := some (.obj [("signals", .str "2 entries")]),
    chartUrl := chartIframeUrl }

/-- Counterexample to C4: selecting a new file from the `Ready` state does not
reset the run to `Idle` — the previous results, signals, chart reference are
all retained, and the stage stays `Ready`. -/
theorem file_select_no_reset_cex :
    stage readyState = Stage.Ready
    ∧ stage (handleFileChange readyState (some ⟨"other.csv"⟩)) ≠ Stage.Idle
    ∧ (handleFileChange readyState (some ⟨"other.csv"⟩)).results ≠ none
    ∧ (handleFileChange readyState (some ⟨"other.csv"⟩)).signals ≠ none
    ∧ (handleFileChange readyState (some ⟨"other.csv"⟩)).chartUrl ≠ "" := by
  decide

/-- C4 amended: selecting a new file, in any state, updates only the selected
file and the displayed file name; results, signals, chart reference and error
are all retained unchanged (no reset to `Idle` occurs), and a cancelled picker
(no file) leaves the state untouched. -/
theorem file_select_updates_only_file :
    (∀ st f, handleFileChange st (some f) =
       { st with file := some f, fileName := f.name })
    ∧ ∀ st, handleFileChange st none = st := by
  exact ⟨fun st f => rfl, fun st => rfl⟩

/-- Counterexample to C3: when the underlying logout call fails, the session
store keeps the current user — the state remains `Authenticated`, not
`Anonymous`. -/
theorem logout_failure_stays_authenticated_cex :
    (logout ⟨some "alice", false⟩
        (.error ⟨.ServerFault, "Failed to fetch"⟩)).1.user = some "alice"
    ∧ (logout ⟨some "alice", false⟩
        (.error ⟨.ServerFault, "Failed to fetch"⟩)).1.authenticated = true
    ∧ (logout ⟨some "alice", false⟩
        (.error ⟨.ServerFault, "Failed to fetch"⟩)).2 = false := by
  decide

/-- C3 amended: the session store's logout clears the user (ends `Anonymous`,
returning `true`) exactly when the underlying call resolves; when the call
rejects — transport failure or classified error — the previous state is kept
unchanged and logout returns `false`, so a failed logout can leave the session
`Authenticated`. -/
theorem logout_anonymous_iff_call_resolves :
    (∀ st j, logout st (.ok j) = ({ st with user := none }, true))
    ∧ ∀ st e, logout st (.error e) = (st, false) := by
  exact ⟨fun st j => rfl, fun st e => rfl⟩

/-- A sector state holding data successfully fetched for the `7d` period. -/
def sector7d : SectorState :=
  { period := "7d", sectorData := [⟨"Technology", 10⟩, ⟨"Energy", -3⟩],
    summary := some ⟨7 / 2, 1, 1⟩, loading := false, error := "" }

/-- A timeout of one of the two sector fetches, as the joined promise
rejects. -/
def sectorTimeout : HErr := ⟨.ServerFault, "HTTP 504: Gateway Timeout"⟩

/-- Counterexample to C5: when the joined sector fetch for a new period
rejects, the aggregator sets its error flag but keeps the entries and summary
of the previously successful period — stale data stays visible alongside the
new error. -/
theorem sector_error_keeps_stale_data_cex :
    (fetchData sector7d (.error sectorTimeout)).error =
      "Failed to fetch sector data"
    ∧ (fetchData sector7d (.error sectorTimeout)).sectorData =
        [⟨"Technology", 10⟩, ⟨"Energy", -3⟩]
    ∧ (fetchData sector7d (.error sectorTimeout)).summary = some ⟨7 / 2, 1, 1⟩ := by
  refine ⟨rfl, rfl, rfl⟩

/-- C5 amended: when either sector fetch rejects, the aggregator sets the
fixed error message and clears only the loading flag; the previously fetched
entries and summary are retained unchanged, not cleared. -/
theorem sector_fetch_error_retains_data :
    ∀ st e, fetchData st (.error e) =
      { st with loading := false, error := "Failed to fetch sector data" } := by
  intro st e
  rfl

/-- Helper: folding `max` of absolute performances from a non-negative seed
equals the seed joined with the spec's maximum. -/
theorem foldl_max_abs (xs : List SectorEntry) :
    ∀ a : Rat, 0 ≤ a →
      xs.foldl (fun acc e => max acc |e.performance|) a =
        max a (specMaxAbs xs) := by
  induction xs with
  | nil =>
      intro a ha
      simp [specMaxAbs, max_eq_left ha]
  | cons x xs ih =>
      intro a ha
      simp only [List.foldl_cons]
      rw [ih (max a |x.performance|) (le_trans ha (le_max_left _ _)),
        max_assoc]
      rfl

/-- The spec's test entries: sector A at 10, sector B at -5. -/
def exA : SectorEntry := ⟨"A", 10⟩

/-- Sector B of the spec's test entries. -/
def exB : SectorEntry := ⟨"B", -5⟩

/-- The spec's test entry list `[{A,10},{B,-5}]`. -/
def exEntries : List SectorEntry := [exA, exB]

/-- C7: for non-empty entry lists the code's scaling divisor equals the
spec's `max(abs(performance))` and each bar's width is
`abs(performance) / max * 100` capped at 100; the empty list uses the fixed
default divisor 5; on `[{A,10},{B,-5}]` the widths are 100% and 50% and only
B (negative) is right-aligned. -/
theorem sector_bar_scaling :
    (∀ entries, entries ≠ [] → maxPerformance entries = specMaxAbs entries)
    ∧ (∀ entries sector, entries ≠ [] →
        barWidth entries sector =
          min (|sector.performance| / specMaxAbs entries * 100) 100)
    ∧ maxPerformance [] = 5
    ∧ (∀ entries sector, barWidth entries sector ≤ 100)
    ∧ barWidth exEntries exA = 100
    ∧ barWidth exEntries exB = 50
    ∧ rightAligned exB = true
    ∧ rightAligned exA = false := by
  have hmax : ∀ entries : List SectorEntry, entries ≠ [] →
      maxPerformance entries = specMaxAbs entries := by
    intro entries h
    cases entries with
    | nil => exact absurd rfl h
    | cons x xs =>
        show xs.foldl (fun acc e => max acc |e.performance|) |x.performance| = _
        rw [foldl_max_abs xs |x.performance| (abs_nonneg _)]
        rfl
  have hten : maxPerformance exEntries = 10 := by
    show max |(10:Rat)| |(-5:Rat)| = 10
    norm_num
  refine ⟨hmax, ?_, rfl, ?_, ?_, ?_, rfl, rfl⟩
  · intro entries sector h
    rw [barWidth, hmax entries h]
  · intro entries sector
    exact min_le_right _ _
  · show min (|exA.performance| / maxPerformance exEntries * 100) 100 = 100
    rw [hten]
    norm_num [exA]
  · show min (|exB.performance| / maxPerformance exEntries * 100) 100 = 50
    rw [hten]
    norm_num [exB]

/-- Witness for C7 at the spec's test entries. -/
theorem sector_bar_scaling_witness :
    maxPerformance exEntries = specMaxAbs exEntries
    ∧ barWidth exEntries exB =
        min (|exB.performance| / specMaxAbs exEntries * 100) 100 :=
  ⟨sector_bar_scaling.1 exEntries (by simp [exEntries]),
   sector_bar_scaling.2.1 exEntries exB (by simp [exEntries])⟩
